import Mathlib

/-!
Shallow embedding of the dtype-resolution subsystem of
src/ivy/functional/ivy/data_type.py: the default-dtype inference engine
(default_int_dtype, default_float_dtype, default_dtype and the helper
_check_float64), the three default-dtype stacks with their set/unset
operations, and the validity queries (valid_dtype, invalid_dtype,
convert_dtype).  Backend-provided canonicalization (as_ivy_dtype,
as_native_dtype) and the nested scanner (ivy.nested_indices_where) are not
part of the source file and are modelled from the spec where noted.
-/

namespace IvyDtype

/-- Decidable equality for `Except` results, so concrete runs of the
fallible queries can be checked by `decide`. -/
instance (α β : Type) [DecidableEq α] [DecidableEq β] :
    DecidableEq (Except α β) := fun a b =>
  match a, b with
  | .ok x, .ok y =>
    if h : x = y then .isTrue (by rw [h]) else .isFalse (by simp [h])
  | .error x, .error y =>
    if h : x = y then .isTrue (by rw [h]) else .isFalse (by simp [h])
  | .ok _, .error _ => .isFalse (by simp)
  | .error _, .ok _ => .isFalse (by simp)

/-- A dtype identifier as it flows through the subsystem: either a canonical
backend-neutral string such as `float32`, or a backend-native dtype handle
(carrying the canonical name it denotes). -/
inductive Dt
  | canon (s : String)
  | native (s : String)
deriving DecidableEq

/-- Modelled from the spec: the backend `as_ivy_dtype` conversion on dtype
strings.  Per spec section 4.1 it is idempotent and returns an
already-canonical string unchanged, so on canonical strings it is the
identity. -/
def as_ivy_dtype_str (s : String) : String := s

/-- Modelled from the spec: the canonical name of a dtype value.  A native
handle converts to the canonical string it denotes (spec section 6:
`as_ivy_dtype(native_or_string) -> CanonicalDtype`); a canonical string is
returned unchanged (idempotence, spec section 4.1). -/
def asIvyStr : Dt → String
  | .canon s => as_ivy_dtype_str s
  | .native s => s

/-- Modelled from the spec: `as_ivy_dtype` as the full conversion, producing
a canonical dtype. -/
def asIvy (d : Dt) : Dt := Dt.canon (asIvyStr d)

/-- Modelled from the spec: `as_native_dtype` converts a dtype to the
active backend native handle for the canonical type it denotes (spec
section 6: `as_native_dtype(canonical) -> NativeDtype`). -/
def asNativeDtype (d : Dt) : Dt := Dt.native (asIvyStr d)

/-- Character-list test: the first list is an initial segment of the
second.  Used to embed the Python substring operator `in`. -/
def chStart : List Char → List Char → Bool
  | [], _ => true
  | _ :: _, [] => false
  | p :: ps, c :: cs => (p = c) && chStart ps cs

/-- Character-list test: the first list occurs contiguously somewhere in the
second. -/
def chSomewhere (p : List Char) : List Char → Bool
  | [] => chStart p []
  | c :: cs => chStart p (c :: cs) || chSomewhere p cs

/-- Python `needle in hay` on strings. -/
def strIn (needle hay : String) : Bool := chSomewhere needle.toList hay.toList

/-- The final arm of source `is_int_dtype` for a dtype string:
`"int" in as_ivy_dtype(dtype_in)`. -/
def is_int_dtype_str (s : String) : Bool := strIn ("int") (as_ivy_dtype_str s)

/-- The final arm of source `is_float_dtype` for a dtype string:
`"float" in as_ivy_dtype(dtype_in)`. -/
def is_float_dtype_str (s : String) : Bool := strIn ("float") (as_ivy_dtype_str s)

/-- Classification of a Python float value, as needed by `_check_float64`. -/
inductive FloatKind
  | finite
  | posInf
  | negInf
  | nan
deriving DecidableEq

/-- A Python float as consumed by the inference engine.  `val` is the exact
value as a rational (meaningful when `kind = finite`).  `dotted` records
whether `str(input)` contains a decimal point: fixed-notation reprs always
do, while scientific reprs with a single-digit mantissa (such as `4e+38` or
`1e-05`) do not.  When `dotted` is true, `intPart` is the integer parsed by
the source expression
`int(str(input).replace("-", "").split(".")[0])`: the digits of the decimal
representation before the first dot, sign stripped (for dotted scientific
reprs this is the integer part of the printed mantissa).  When `dotted` is
false, `split(".")` leaves the whole repr in `tmp[0]` and `int(tmp[0])`
raises `ValueError` (the string still holds the exponent marker), so
`intPart` is never consulted.  `exp10` is
`int(math.floor(math.log10(abs(input))))`, with the source convention that
it is `0` when the value is `0`.  Concrete instances must instantiate these
fields exactly as the Python runtime derives them. -/
structure PyFloat where
  kind : FloatKind
  val : ℚ
  dotted : Bool
  intPart : ℕ
  exp10 : ℤ
deriving DecidableEq

/-- A scalar Python value that can appear as (or inside) the representative
`input` of the default-dtype queries: an int, a bool, or a float. -/
inductive PyVal
  | int (n : ℤ)
  | pybool (b : Bool)
  | float (f : PyFloat)
deriving DecidableEq

/-- A representative input: a scalar leaf or an arbitrarily nested
list/tuple/dict container (dicts scanned by value). -/
inductive PyTree
  | leaf (v : PyVal)
  | coll (xs : List PyTree)

mutual

/-- Modelled from the spec: truthiness of `ivy.nested_indices_where`
(defined outside this source file) with a total predicate: true exactly
when some leaf of the nested structure satisfies the predicate; the scan
short-circuits on the first matching element (spec section 4.3). -/
def anyLeaf (p : PyVal → Bool) : PyTree → Bool
  | .leaf v => p v
  | .coll xs => anyLeafL p xs

/-- List worker of `anyLeaf`. -/
def anyLeafL (p : PyVal → Bool) : List PyTree → Bool
  | [] => false
  | t :: ts => anyLeaf p t || anyLeafL p ts

end

mutual

/-- Modelled from the spec: `ivy.nested_indices_where` with a predicate
that may raise (`Except.error`): depth-first scan that short-circuits on
the first leaf satisfying the predicate and propagates the first raised
error encountered before that. -/
def anyLeafE (p : PyVal → Except String Bool) : PyTree → Except String Bool
  | .leaf v => p v
  | .coll xs => anyLeafEL p xs

/-- List worker of `anyLeafE`. -/
def anyLeafEL (p : PyVal → Except String Bool) : List PyTree → Except String Bool
  | [] => .ok false
  | t :: ts =>
    match anyLeafE p t with
    | .error e => .error e
    | .ok true => .ok true
    | .ok false => anyLeafEL p ts

end

/-- Python comparison `v > q` for a scalar value against an exact rational
threshold (int/float comparisons in Python are exact; `True` compares as
`1`, `False` as `0`; a positive infinity exceeds every threshold; negative
infinity and nan never do). -/
def gtVal : PyVal → ℚ → Bool
  | .int n, q => decide ((n : ℚ) > q)
  | .pybool b, q => decide ((if b then (1 : ℚ) else 0) > q)
  | .float f, q =>
    match f.kind with
    | .finite => decide (f.val > q)
    | .posInf => true
    | .negInf => false
    | .nan => false

/-- Python comparison `v != ivy.inf` (nan compares unequal to everything,
so only the positive-infinity float is equal to `ivy.inf`). -/
def vNeInf : PyVal → Bool
  | .float f =>
    match f.kind with
    | .posInf => false
    | .finite => true
    | .negInf => true
    | .nan => true
  | .int _ => true
  | .pybool _ => true

/-- The threshold `3.4028235 * 10**38` of `_check_float64`, as an exact
rational.  (Python evaluates the product in binary64; the resulting double
differs from this decimal rational by under one part in 10^15, and every
value any claim exercises is far outside that window.) -/
def FMAXQ : ℚ := 340282350000000000000000000000000000000

/-- The character list of Python `bin(n)` without the `0b` marker: most
significant bit first, the single character `0` for `n = 0`
(`Nat.toDigits 2` produces exactly this). -/
def binDigits (n : ℕ) : List Char := Nat.toDigits 2 n

/-- Python `int` applied to a nonempty string of digit characters: the
characters read as a decimal numeral.  `bin` produces only `0` and `1`, so
positivity of this number coincides with some bit being set. -/
def decOfChars (l : List Char) : ℕ :=
  l.foldl (fun a c => a * 10 + (c.toNat - 48)) 0

/-- The mantissa clause of `_check_float64`:
`len(mant) > 24 and int(mant[24:]) > 0` for `mant = bin(int(tmp[0]))`. -/
def mantChk (n : ℕ) : Bool :=
  let mant := binDigits n
  decide (mant.length > 24) && decide (0 < decOfChars (mant.drop 24))

/-- The source expression
`int(math.floor(math.log10(abs(input)))) if input != 0 else 0` for an
integer input: the floor of the base-10 logarithm is one less than the
decimal digit count.  (The Python original computes it through binary64
`log10`, which agrees with the exact floor for every magnitude a claim
exercises.) -/
def intExp10 (n : ℤ) : ℤ :=
  if n = 0 then 0 else ((Nat.toDigits 10 n.natAbs).length : ℤ) - 1

/-- Embedding of source `_check_float64` (data_type.py lines 412-423),
extended over every scalar the nested scanner can feed it: for a finite
float whose repr contains a decimal point, the four-way disjunction over
the fields derived from its decimal representation; for a finite float
whose repr has no decimal point (single-digit-mantissa scientific form),
the line `mant = bin(int(tmp[0]))` runs unconditionally before the return
and raises `ValueError`, since `tmp[0]` is then the whole repr with its
exponent marker; for an int the disjunction with `tmp[0]` the digits of
its absolute value (always a valid integer literal); `False` for
non-finite floats, which `math.isfinite` filters before any parsing; and
for a bool the call raises `ValueError` at `int(str(True))` since
`str(True)` contains no digits. -/
def check_float64 : PyVal → Except String Bool
  | .int n =>
    .ok (decide ((n : ℚ) > FMAXQ) || mantChk n.natAbs ||
         decide (intExp10 n < -126) || decide (intExp10 n > 127))
  | .pybool _ => .error "ValueError"
  | .float f =>
    match f.kind with
    | .finite =>
      if f.dotted then
        .ok (decide (f.val > FMAXQ) || mantChk f.intPart ||
             decide (f.exp10 < -126) || decide (f.exp10 > 127))
      else .error "ValueError"
    | .posInf => .ok false
    | .negInf => .ok false
    | .nan => .ok false

/-- The three module-level default-dtype stacks (data_type.py lines
226-228), each a Python list used with `append` and `pop(-1)`: the tail of
the Lean list is the top of the stack. -/
structure DtypeState where
  default_dtype_stack : List String
  default_float_dtype_stack : List String
  default_int_dtype_stack : List String
deriving DecidableEq

/-- The process-start state: all three stacks empty. -/
def emptyState : DtypeState := ⟨[], [], []⟩

/-- The string computed by `default_dtype()` with no arguments before its
final canonicalization: top of the general stack; else top of the float
stack; else the hardwired `float32`. -/
def defaultDtypeRaw (st : DtypeState) : String :=
  match st.default_dtype_stack.getLast? with
  | some d => d
  | none =>
    match st.default_float_dtype_stack.getLast? with
    | some f => f
    | none => "float32"

/-- The value of the call `default_dtype()` (no dtype, no item, `as_native`
unset) as used inside the two inference fallbacks: the raw stack value
passed through `as_ivy_dtype`. -/
def default_dtype_noargs (st : DtypeState) : String :=
  as_ivy_dtype_str (defaultDtypeRaw st)

/-- The shared integer fallback of `default_int_dtype`:
`def_dtype = default_dtype(); ret = def_dtype if is_int_dtype(def_dtype)
else int32`. -/
def intFallback (st : DtypeState) : String :=
  if is_int_dtype_str (default_dtype_noargs st) then default_dtype_noargs st
  else "int32"

/-- The shared float fallback of `default_float_dtype`:
`def_dtype = default_dtype(); ret = def_dtype if is_float_dtype(def_dtype)
else float32`. -/
def floatFallback (st : DtypeState) : String :=
  if is_float_dtype_str (default_dtype_noargs st) then default_dtype_noargs st
  else "float32"

/-- Embedding of source `default_int_dtype` (data_type.py lines 331-407)
over scalar and container inputs.  `backend` is the ambient `ivy.backend`
string consulted by the scalar branch.  The native-array and numpy-array
branches concern already-typed arrays and are outside the embedded input
type. -/
def default_int_dtype (backend : String) (st : DtypeState)
    (input : Option PyTree) (int_dtype : Option Dt)
    (as_native : Option Bool) : Dt :=
  match int_dtype with
  | some d =>
    match as_native with
    | some true => asNativeDtype d
    | some false => Dt.canon (as_ivy_dtype_str (asIvyStr d))
    | none => d
  | none =>
    let asn := as_native.getD false
    let ret : String :=
      match input with
      | some (.coll xs) =>
        if anyLeafL (fun x => gtVal x 9223372036854775807 && vNeInf x) xs then
          "uint64"
        else if anyLeafL (fun x => gtVal x 2147483647 && vNeInf x) xs then
          "int64"
        else intFallback st
      | some (.leaf v) =>
        if gtVal v 9223372036854775807 && vNeInf v &&
            decide (backend ≠ "torch") then
          "uint64"
        else if gtVal v 2147483647 && vNeInf v then
          "int64"
        else intFallback st
      | none =>
        match st.default_int_dtype_stack.getLast? with
        | some d => d
        | none => intFallback st
    if asn then Dt.native (as_ivy_dtype_str ret)
    else Dt.canon (as_ivy_dtype_str ret)

/-- Embedding of source `default_float_dtype` (data_type.py lines 427-491)
over scalar and container inputs.  The result is `Except`-valued because
the scanned predicate `_check_float64` raises on a bool element. -/
def default_float_dtype (st : DtypeState) (input : Option PyTree)
    (float_dtype : Option Dt) (as_native : Option Bool) :
    Except String Dt :=
  match float_dtype with
  | some d =>
    match as_native with
    | some true => .ok (asNativeDtype d)
    | some false => .ok (Dt.canon (as_ivy_dtype_str (asIvyStr d)))
    | none => .ok d
  | none =>
    let asn := as_native.getD false
    let retE : Except String String :=
      match input with
      | some (.coll xs) =>
        match anyLeafEL check_float64 xs with
        | .error e => .error e
        | .ok true => .ok ("float64")
        | .ok false => .ok (floatFallback st)
      | some (.leaf v) =>
        match check_float64 v with
        | .error e => .error e
        | .ok true => .ok ("float64")
        | .ok false => .ok (floatFallback st)
      | none =>
        match st.default_float_dtype_stack.getLast? with
        | some d => .ok d
        | none => .ok (floatFallback st)
    match retE with
    | .error e => .error e
    | .ok ret =>
      .ok (if asn then Dt.native (as_ivy_dtype_str ret)
           else Dt.canon (as_ivy_dtype_str ret))

/-- Source `isinstance(item, (list, tuple, dict)) and len(item) == 0`. -/
def isEmptyColl : PyTree → Bool
  | .coll [] => true
  | .coll (_ :: _) => false
  | .leaf _ => false

/-- The value arms of source `is_float_dtype` (data_type.py lines 666-697):
a float scalar, or a container with some float leaf. -/
def isFloatItem : PyTree → Bool
  | .leaf (.float _) => true
  | .leaf (.int _) => false
  | .leaf (.pybool _) => false
  | .coll xs =>
    anyLeafL (fun x => match x with | .float _ => true | _ => false) xs

/-- The value arms of source `is_int_dtype` (data_type.py lines 626-663):
an int scalar that is not a bool, or a container with some int leaf that is
not a bool. -/
def isIntItem : PyTree → Bool
  | .leaf (.int _) => true
  | .leaf (.float _) => false
  | .leaf (.pybool _) => false
  | .coll xs =>
    anyLeafL (fun x => match x with | .int _ => true | _ => false) xs

/-- The tail of `default_dtype` once the stacks decide the answer: native
conversion when `as_native`, canonicalization otherwise. -/
def defaultDtypeStackRet (st : DtypeState) (asn : Bool) : Dt :=
  if asn then Dt.native (as_ivy_dtype_str (defaultDtypeRaw st))
  else Dt.canon (as_ivy_dtype_str (defaultDtypeRaw st))

/-- Embedding of source `default_dtype` (data_type.py lines 495-543):
explicit-dtype short-circuit, then item classification (empty containers
ignored, float items routed to `default_float_dtype`, int items to
`default_int_dtype`, everything else `bool`), then the stack fallback. -/
def default_dtype (backend : String) (st : DtypeState) (dtype : Option Dt)
    (item : Option PyTree) (as_native : Option Bool) : Except String Dt :=
  match dtype with
  | some d =>
    match as_native with
    | some true => .ok (asNativeDtype d)
    | some false => .ok (asIvy d)
    | none => .ok d
  | none =>
    let asn := as_native.getD false
    match item with
    | some it =>
      if isEmptyColl it then .ok (defaultDtypeStackRet st asn)
      else if isFloatItem it then
        default_float_dtype st (some it) none (some asn)
      else if isIntItem it then
        .ok (default_int_dtype backend st (some it) none (some asn))
      else if asn then .ok (asNativeDtype (Dt.canon "bool"))
      else .ok (Dt.canon "bool")
    | none => .ok (defaultDtypeStackRet st asn)

/-- Source `set_default_dtype` (data_type.py lines 546-556): canonicalize,
then append to the general stack. -/
def set_default_dtype (st : DtypeState) (d : Dt) : DtypeState :=
  { st with default_dtype_stack :=
      st.default_dtype_stack ++ [asIvyStr d] }

/-- Source `unset_default_dtype` (data_type.py lines 559-563): pop the tail
of the general stack when it is nonempty, otherwise do nothing. -/
def unset_default_dtype (st : DtypeState) : DtypeState :=
  if st.default_dtype_stack.isEmpty then st
  else { st with default_dtype_stack := st.default_dtype_stack.dropLast }

/-- One call in a set/unset call sequence against the general stack. -/
inductive DOp
  | set (d : Dt)
  | unset

/-- Run a sequence of set/unset calls left to right. -/
def runSeq : List DOp → DtypeState → DtypeState
  | [], st => st
  | .set d :: ops, st => runSeq ops (set_default_dtype st d)
  | .unset :: ops, st => runSeq ops (unset_default_dtype st)

/-- A call sequence in which every `set` is matched by a later `unset`,
with the matched pairs properly nested. -/
inductive Balanced : List DOp → Prop
  | nil : Balanced []
  | wrap (d : Dt) (b1 b2 : List DOp) : Balanced b1 → Balanced b2 →
      Balanced (DOp.set d :: b1 ++ DOp.unset :: b2)

/-- Embedding of source `valid_dtype` (data_type.py lines 725-741), with
the active backend advertised valid-dtype collection as a parameter:
`None` is trivially valid, otherwise membership of the canonicalized
dtype. -/
def valid_dtype (valid_dtypes : List String) (dtype_in : Option Dt) :
    Bool :=
  match dtype_in with
  | none => true
  | some d => decide (asIvyStr d ∈ valid_dtypes)

/-- Embedding of source `invalid_dtype` (data_type.py lines 744-761):
`None` is trivially not invalid, otherwise membership of the canonicalized
dtype in the invalid collection. -/
def invalid_dtype (invalid_dtypes : List String) (dtype_in : Option Dt) :
    Bool :=
  match dtype_in with
  | none => false
  | some d => decide (asIvyStr d ∈ invalid_dtypes)

/-- The fixed backend list of source `convert_dtype`. -/
def valid_backends : List String :=
  ["numpy", "jax", "tensorflow", "torch", "mxnet"]

/-- A single-quote character as a string, used to reproduce the Python
`repr` of a string list inside the `convert_dtype` error message. -/
def sq : String := String.mk [Char.ofNat 39]

/-- Python `str` of a list of strings, as interpolated by
`"... must be one of {0}".format(valid_backends)` with the placeholder
written out: bracketed, comma separated, each element single-quoted. -/
def pyListRepr (l : List String) : String :=
  "[" ++ String.intercalate (", ") (l.map (fun s => sq ++ s ++ sq)) ++ "]"

/-- The exception message raised by `convert_dtype` on an unknown
backend. -/
def convertDtypeErr : String :=
  "Invalid backend passed, must be one of " ++ pyListRepr valid_backends

/-- Embedding of source `convert_dtype` (data_type.py lines 764-786).  The
behaviour of the imported backend module `as_ivy_dtype` is abstracted as
the function parameter `backendAsIvy`; the membership check runs before the
import, so the error branch never consults it. -/
def convert_dtype (backendAsIvy : String → Dt → String) (dtype_in : Dt)
    (backend : String) : Except String Dt :=
  if backend ∈ valid_backends then
    .ok (asNativeDtype (Dt.canon (backendAsIvy backend dtype_in)))
  else
    .error convertDtypeErr

/-! Concrete Python float values used by the claims.  Each instance records
the fields exactly as the Python runtime derives them; the exact binary64
value of a decimal literal differs from the decimal rational recorded in
`val` by a relative 2^-53, which no comparison made by the source can
detect for these values (all of them sit far from the `_check_float64`
threshold). -/

/-- The Python float `-3.5e38`: finite; printed as `-3.5e+38`, which
contains a decimal point; the sign is stripped and `tmp[0]` parses to `3`;
floor of log10 of its absolute value is `38`. -/
def float_m3_5e38 : PyFloat :=
  ⟨.finite, -350000000000000000000000000000000000000, true, 3, 38⟩

/-- The Python float `4e38`: finite; printed as `4e+38`, which contains no
decimal point, so `tmp[0]` is the whole string `4e+38` and `int(tmp[0])`
raises `ValueError` inside `_check_float64`; the `intPart` field is never
consulted and is recorded as `0`. -/
def float_4e38 : PyFloat :=
  ⟨.finite, 400000000000000000000000000000000000000, false, 0, 38⟩

/-- The Python float `4.5e38`: finite; printed as `4.5e+38`, which
contains a decimal point, and `tmp[0]` parses to `4`; floor log10 is
`38`. -/
def float_4_5e38 : PyFloat :=
  ⟨.finite, 450000000000000000000000000000000000000, true, 4, 38⟩

/-- The Python float `float("nan")`: not finite (its repr `nan` has no
decimal point, but `math.isfinite` filters it before any parsing), so the
remaining fields are never consulted by the source. -/
def float_nan : PyFloat := ⟨.nan, 0, false, 0, 0⟩

/-- The Python float `float("inf")`. -/
def float_inf : PyFloat := ⟨.posInf, 0, false, 0, 0⟩

/-- The integer rule of claim C1 read literally as a three-way case split:
`uint64` when the value exceeds the signed 64-bit maximum and the backend
permits unsigned 64-bit (which in the source means the backend is not
`torch`); `int64` when the value lies strictly between the signed 32-bit
and 64-bit maxima; otherwise the general default when it is an integer
category, else `int32`. -/
def specC1IntScalar (backend : String) (st : DtypeState) (v : PyVal) :
    String :=
  if gtVal v 9223372036854775807 && decide (backend ≠ "torch") then "uint64"
  else if gtVal v 2147483647 && !gtVal v 9223372036854775807 then "int64"
  else intFallback st

/-- The explicit-dtype short-circuit as the source actually implements it
in all three default queries: native conversion when `as_native` is
`True`, canonicalization when it is `False`, and the argument returned
verbatim when it is unset. -/
def explicitResult (d : Dt) (as_native : Option Bool) : Dt :=
  match as_native with
  | some true => asNativeDtype d
  | some false => Dt.canon (asIvyStr d)
  | none => d

/-! Helper lemmas. -/

/-- The pure nested scan distributes over list concatenation. -/
theorem anyLeafL_append (p : PyVal → Bool) (l1 l2 : List PyTree) :
    anyLeafL p (l1 ++ l2) = (anyLeafL p l1 || anyLeafL p l2) := by
  induction l1 with
  | nil => simp [anyLeafL]
  | cons t ts ih => simp [anyLeafL, ih, Bool.or_assoc]

/-- If every tree of a prefix scans without error and the remainder scans
to a hit, the whole scan is a hit. -/
theorem anyLeafEL_okTrue (p : PyVal → Except String Bool)
    (pre rest : List PyTree)
    (h : ∀ t ∈ pre, ∃ b, anyLeafE p t = .ok b)
    (hr : anyLeafEL p rest = .ok true) :
    anyLeafEL p (pre ++ rest) = .ok true := by
  induction pre with
  | nil => simpa using hr
  | cons t ts ih =>
    obtain ⟨b, hb⟩ := h t (by simp)
    cases b with
    | true => simp [anyLeafEL, hb]
    | false =>
      have := ih (fun u hu => h u (by simp [hu]))
      simp [anyLeafEL, hb, this]

/-- Running a call sequence decomposes over concatenation. -/
theorem runSeq_append (l1 l2 : List DOp) (st : DtypeState) :
    runSeq (l1 ++ l2) st = runSeq l2 (runSeq l1 st) := by
  induction l1 generalizing st with
  | nil => rfl
  | cons op ops ih => cases op <;> simp [runSeq, ih]

/-- Popping immediately after a push restores the state. -/
theorem unset_set (st : DtypeState) (d : Dt) :
    unset_default_dtype (set_default_dtype st d) = st := by
  simp [unset_default_dtype, set_default_dtype]

/-- A balanced call sequence leaves the state unchanged. -/
theorem runSeq_balanced {ops : List DOp} (hb : Balanced ops)
    (st : DtypeState) : runSeq ops st = st := by
  induction hb generalizing st with
  | nil => rfl
  | wrap d b1 b2 _ _ ih1 ih2 =>
    calc runSeq (DOp.set d :: b1 ++ DOp.unset :: b2) st
        = runSeq (b1 ++ DOp.unset :: b2) (set_default_dtype st d) := rfl
      _ = runSeq (DOp.unset :: b2) (runSeq b1 (set_default_dtype st d)) :=
          runSeq_append b1 _ _
      _ = runSeq (DOp.unset :: b2) (set_default_dtype st d) := by
          rw [ih1]
      _ = runSeq b2 (unset_default_dtype (set_default_dtype st d)) := rfl
      _ = runSeq b2 st := by rw [unset_set]
      _ = st := ih2 st

/-! Claim theorems. -/

/-- C1, counterexample: with the `torch` backend active (the one backend
for which the source suppresses the unsigned rule) and the scalar input
`9223372036854775808`, the code returns `int64`, while the claim as stated
puts this input in its final otherwise-branch (its `int64` case demands
the value be at most `9223372036854775807`), which with empty stacks
yields `int32`. -/
theorem claim_c1_counterexample :
    default_int_dtype "torch" emptyState
        (some (.leaf (.int 9223372036854775808))) none none =
      Dt.canon "int64"
    ∧ specC1IntScalar "torch" emptyState (.int 9223372036854775808) =
      "int32"
    ∧ Dt.canon "int64" ≠ Dt.canon "int32" := by
  refine ⟨by decide, by decide, by decide⟩

/-- C1 (amended): for every scalar input that is not the infinity
sentinel and no explicit int dtype, the result is `uint64` when the value
exceeds the signed 64-bit maximum and the backend permits unsigned 64-bit
(is not `torch`); `int64` when the value exceeds the signed 32-bit maximum
but the unsigned rule did not fire (including values above the 64-bit
maximum under `torch`); and otherwise the general default when it is an
integer category, else `int32`. -/
theorem claim_c1_amended (backend : String) (st : DtypeState) (v : PyVal)
    (h : vNeInf v = true) :
    default_int_dtype backend st (some (.leaf v)) none none =
      Dt.canon
        (if gtVal v 9223372036854775807 && decide (backend ≠ "torch") then
          "uint64"
        else if gtVal v 2147483647 then "int64"
        else intFallback st) := by
  simp [default_int_dtype, as_ivy_dtype_str, h]

/-- C1, witness: the amended theorem evaluated at backend `numpy`, empty
stacks and scalar input `5`, giving `int32`. -/
theorem claim_c1_witness :
    default_int_dtype "numpy" emptyState (some (.leaf (.int 5))) none
        none =
      Dt.canon "int32" := by
  rw [claim_c1_amended "numpy" emptyState (.int 5) (by decide)]
  decide

/-- C2, counterexample: with the `torch` backend, the container input
`[9223372036854775808]` yields `uint64` (the container scan never consults
the backend), while the same value as a scalar yields `int64`; so the
unsigned rule is not suppressed for containers, contradicting the claim
that the suppression applies to nested inputs exactly as to scalars. -/
theorem claim_c2_counterexample :
    default_int_dtype "torch" emptyState
        (some (.coll [.leaf (.int 9223372036854775808)])) none none =
      Dt.canon "uint64"
    ∧ default_int_dtype "torch" emptyState
        (some (.leaf (.int 9223372036854775808))) none none =
      Dt.canon "int64"
    ∧ Dt.canon "uint64" ≠ Dt.canon "int64" := by
  refine ⟨by decide, by decide, by decide⟩

/-- C2 (amended): for container inputs the result of `default_int_dtype`
is independent of the active backend, and a container holding any
non-infinity element above the signed 64-bit maximum yields `uint64` for
every backend, `torch` included: the suppression of the unsigned rule
applies only to scalar inputs. -/
theorem claim_c2_amended :
    (∀ (b1 b2 : String) (st : DtypeState) (xs : List PyTree)
        (idt : Option Dt) (asn : Option Bool),
      default_int_dtype b1 st (some (.coll xs)) idt asn =
        default_int_dtype b2 st (some (.coll xs)) idt asn)
    ∧ ∀ (b : String) (st : DtypeState) (pre post : List PyTree)
        (v : PyVal), gtVal v 9223372036854775807 = true →
        vNeInf v = true →
        default_int_dtype b st
            (some (.coll (pre ++ .leaf v :: post))) none none =
          Dt.canon "uint64" := by
  constructor
  · intro b1 b2 st xs idt asn
    cases idt <;> rfl
  · intro b st pre post v h1 h2
    simp [default_int_dtype, anyLeafL_append, anyLeafL, anyLeaf, h1, h2,
      as_ivy_dtype_str]

/-- C2, witness: the amended theorem evaluated with the oversized element
`10000000000000000000` nested in a container, under two backends. -/
theorem claim_c2_witness :
    default_int_dtype "torch" emptyState
        (some (.coll [.leaf (.int 10000000000000000000)])) none none =
      default_int_dtype "numpy" emptyState
        (some (.coll [.leaf (.int 10000000000000000000)])) none none
    ∧ default_int_dtype "jax" emptyState
        (some (.coll [.leaf (.int 10000000000000000000)])) none none =
      Dt.canon "uint64" := by
  refine ⟨claim_c2_amended.1 "torch" "numpy" emptyState _ none none, ?_⟩
  have h := claim_c2_amended.2 "jax" emptyState [] []
    (.int 10000000000000000000) (by decide) (by decide)
  simpa using h

/-- C3, counterexample: the source compares the signed value, not its
absolute value, against the float32 maximum, so the finite input `-3.5e38`
(whose absolute value exceeds `3.4028235e38`) does not force `float64`:
`_check_float64` returns false on it and the query returns `float32`. -/
theorem claim_c3_counterexample :
    check_float64 (.float float_m3_5e38) = .ok false
    ∧ default_float_dtype emptyState
        (some (.leaf (.float float_m3_5e38))) none none =
      .ok (Dt.canon "float32")
    ∧ (Except.ok (Dt.canon "float32") : Except String Dt) ≠
      .ok (Dt.canon "float64") := by
  refine ⟨by decide, by decide, by decide⟩

/-- C3 (amended): for every finite value strictly greater than
`3.4028235e38` (the comparison is signed, so only positive values
qualify) whose repr contains a decimal point, `_check_float64` fires and
`default_float_dtype` returns `float64`, both for the scalar itself and
for any container in which it occurs after elements whose scan does not
raise; a finite value whose repr has no decimal point (single-digit
mantissa scientific form, such as `4e38`) instead raises `ValueError` in
`_check_float64` and the query propagates the error rather than
returning. -/
theorem claim_c3_amended (st : DtypeState) (f : PyFloat)
    (hk : f.kind = .finite) (hdot : f.dotted = true)
    (hv : f.val > FMAXQ) :
    check_float64 (.float f) = .ok true
    ∧ default_float_dtype st (some (.leaf (.float f))) none none =
      .ok (Dt.canon "float64")
    ∧ (∀ (pre post : List PyTree),
        (∀ t ∈ pre, ∃ b, anyLeafE check_float64 t = .ok b) →
        default_float_dtype st
            (some (.coll (pre ++ .leaf (.float f) :: post))) none none =
          .ok (Dt.canon "float64"))
    ∧ ∀ g : PyFloat, g.kind = .finite → g.dotted = false →
        check_float64 (.float g) = .error "ValueError"
        ∧ default_float_dtype st (some (.leaf (.float g))) none none =
          .error "ValueError" := by
  obtain ⟨k, val, dt, ip, e⟩ := f
  cases hk
  subst hdot
  simp only [check_float64] at hv ⊢
  have hd : decide (val > FMAXQ) = true := by simpa using hv
  refine ⟨by simp [hd], by simp [default_float_dtype, check_float64, hd,
    as_ivy_dtype_str], ?_, ?_⟩
  · intro pre post hpre
    have hrest : anyLeafEL check_float64
        (PyTree.leaf (.float ⟨.finite, val, true, ip, e⟩) :: post) =
          .ok true := by
      simp [anyLeafEL, anyLeafE, check_float64, hd]
    have := anyLeafEL_okTrue check_float64 pre _ hpre hrest
    simp [default_float_dtype, this, as_ivy_dtype_str]
  · intro g hgk hgd
    obtain ⟨gk, gval, gdt, gip, ge⟩ := g
    cases hgk
    subst hgd
    exact ⟨rfl, rfl⟩

/-- C3, witness: the amended theorem evaluated at the dotted value
`4.5e38` (as a scalar and nested in a singleton container) and, for the
error clause, at the dotless value `4e38`. -/
theorem claim_c3_witness :
    default_float_dtype emptyState (some (.leaf (.float float_4_5e38)))
        none none =
      .ok (Dt.canon "float64")
    ∧ default_float_dtype emptyState
        (some (.coll [.leaf (.float float_4_5e38)])) none none =
      .ok (Dt.canon "float64")
    ∧ default_float_dtype emptyState
        (some (.leaf (.float float_4e38))) none none =
      .error "ValueError" := by
  have h := claim_c3_amended emptyState float_4_5e38 (by decide)
    (by decide) (by decide)
  refine ⟨h.2.1, by simpa using h.2.2.1 [] [] (by simp), ?_⟩
  exact (h.2.2.2 float_4e38 (by decide) (by decide)).2

/-- C5 (confirmed): for every non-finite float input (nan or either
infinity) with no explicit float dtype, `_check_float64` returns false, so
the query never widens and instead returns the ambient fallback: the
general default when it is a float category, else `float32`. -/
theorem claim_c5 (st : DtypeState) (f : PyFloat)
    (h : f.kind ≠ .finite) :
    check_float64 (.float f) = .ok false
    ∧ default_float_dtype st (some (.leaf (.float f))) none none =
      .ok (Dt.canon (floatFallback st)) := by
  obtain ⟨k, val, dt, ip, e⟩ := f
  cases k with
  | finite => exact absurd rfl h
  | posInf =>
    exact ⟨rfl, by simp [default_float_dtype, check_float64,
      as_ivy_dtype_str]⟩
  | negInf =>
    exact ⟨rfl, by simp [default_float_dtype, check_float64,
      as_ivy_dtype_str]⟩
  | nan =>
    exact ⟨rfl, by simp [default_float_dtype, check_float64,
      as_ivy_dtype_str]⟩

/-- C5, witness: the theorem evaluated at `float("nan")` with empty
stacks, where the fallback is `float32`. -/
theorem claim_c5_witness :
    check_float64 (.float float_nan) = .ok false
    ∧ default_float_dtype emptyState
        (some (.leaf (.float float_nan))) none none =
      .ok (Dt.canon "float32") := by
  have h := claim_c5 emptyState float_nan (by decide)
  exact ⟨h.1, by rw [h.2]; decide⟩

/-- C6, counterexample: with the explicit dtype present as a native handle
and `as_native` unset, `default_dtype` returns the handle verbatim,
not its canonicalization as the claim states. -/
theorem claim_c6_counterexample :
    default_dtype "numpy" emptyState (some (.native "float32")) none
        none =
      .ok (.native "float32")
    ∧ Dt.native "float32" ≠ asIvy (.native "float32") := by
  refine ⟨by decide, by decide⟩

/-- C6 (amended): whenever an explicit dtype is present, all three default
queries return immediately without consulting the stacks or the inference
scan (the result is independent of the stack state and of any
representative value); the explicit dtype is converted to native when
`as_native` is `True`, canonicalized when it is `False`, and returned
verbatim (not canonicalized) when `as_native` is unset. -/
theorem claim_c6_amended (bk : String) (st st2 : DtypeState)
    (it it2 : Option PyTree) (asn : Option Bool) (d : Dt) :
    default_dtype bk st (some d) it asn = .ok (explicitResult d asn)
    ∧ default_int_dtype bk st it (some d) asn = explicitResult d asn
    ∧ default_float_dtype st it (some d) asn =
      .ok (explicitResult d asn)
    ∧ default_dtype bk st (some d) it asn =
      default_dtype bk st2 (some d) it2 asn := by
  rcases asn with _ | b
  · exact ⟨rfl, rfl, rfl, rfl⟩
  · cases b <;> exact ⟨rfl, rfl, rfl, rfl⟩

/-- C7 (confirmed): any properly matched sequence of
`set_default_dtype`/`unset_default_dtype` calls leaves the state (and
hence the value of `default_dtype()`) exactly as it was, and
`unset_default_dtype` on an empty general stack is a no-op. -/
theorem claim_c7 :
    (∀ (ops : List DOp) (st : DtypeState), Balanced ops →
      runSeq ops st = st
      ∧ default_dtype_noargs (runSeq ops st) = default_dtype_noargs st)
    ∧ ∀ st : DtypeState, st.default_dtype_stack = [] →
        unset_default_dtype st = st := by
  constructor
  · intro ops st hb
    have h := runSeq_balanced hb st
    exact ⟨h, by rw [h]⟩
  · intro st h
    simp [unset_default_dtype, h]

/-- C7, witness: the theorem evaluated on the sequence push `float64` then
pop, from a state whose pre-existing ambient value is `int8`, and the
no-op pop on the empty start state. -/
theorem claim_c7_witness :
    runSeq [DOp.set (Dt.canon "float64"), DOp.unset]
        ⟨["int8"], [], []⟩ =
      ⟨["int8"], [], []⟩
    ∧ default_dtype_noargs
        (runSeq [DOp.set (Dt.canon "float64"), DOp.unset]
          ⟨["int8"], [], []⟩) =
      default_dtype_noargs ⟨["int8"], [], []⟩
    ∧ unset_default_dtype emptyState = emptyState := by
  have h := claim_c7.1 [DOp.set (Dt.canon "float64"), DOp.unset]
    ⟨["int8"], [], []⟩
    (Balanced.wrap (Dt.canon "float64") [] [] Balanced.nil Balanced.nil)
  exact ⟨h.1, h.2, claim_c7.2 emptyState rfl⟩

/-- C8 (confirmed): `valid_dtype` treats `None` as trivially valid and
`invalid_dtype` treats it as trivially not invalid, and on every non-None
dtype both are exactly the membership test of the canonicalized dtype in
the backend advertised set. -/
theorem claim_c8 (vd ivd : List String) (d : Dt) :
    valid_dtype vd none = true
    ∧ invalid_dtype ivd none = false
    ∧ valid_dtype vd (some d) = decide (asIvyStr d ∈ vd)
    ∧ invalid_dtype ivd (some d) = decide (asIvyStr d ∈ ivd) :=
  ⟨rfl, rfl, rfl, rfl⟩

/-- C9 (confirmed): for every backend identifier outside the fixed
five-element set, `convert_dtype` fails with the error message naming the
valid set, for every dtype argument, and without consulting the backend
module (the result does not depend on the abstracted backend
conversion). -/
theorem claim_c9 (f g : String → Dt → String) (d : Dt) (backend : String)
    (h : backend ∉ valid_backends) :
    convert_dtype f d backend = .error convertDtypeErr
    ∧ convert_dtype f d backend = convert_dtype g d backend
    ∧ convertDtypeErr =
      "Invalid backend passed, must be one of " ++
        pyListRepr valid_backends := by
  refine ⟨?_, ?_, rfl⟩ <;> simp [convert_dtype, h]

/-- C9, witness: the theorem evaluated at the identifier `not-a-backend`,
with the expected message spelled out (single quotes written through
`sq`). -/
theorem claim_c9_witness :
    "not-a-backend" ∉ valid_backends
    ∧ convert_dtype (fun _ x => asIvyStr x) (Dt.canon "int8")
        "not-a-backend" =
      .error ("Invalid backend passed, must be one of [" ++ sq ++
        "numpy" ++ sq ++ ", " ++ sq ++ "jax" ++ sq ++ ", " ++ sq ++
        "tensorflow" ++ sq ++ ", " ++ sq ++ "torch" ++ sq ++ ", " ++
        sq ++ "mxnet" ++ sq ++ "]") := by
  refine ⟨by decide, ?_⟩
  rw [(claim_c9 (fun _ x => asIvyStr x) (fun _ x => asIvyStr x)
    (Dt.canon "int8") "not-a-backend" (by decide)).1]
  decide

/-- C10 (confirmed): a non-empty item that is neither float-category nor
int-category resolves to `bool` (native bool when `as_native` is set),
independently of the stacks, while an empty list/tuple/dict item is
ignored and the stack-based default applies. -/
theorem claim_c10 :
    (∀ (bk : String) (st : DtypeState) (it : PyTree)
        (asn : Option Bool),
      isEmptyColl it = false → isFloatItem it = false →
      isIntItem it = false →
      default_dtype bk st none (some it) asn =
        .ok (if asn.getD false then asNativeDtype (Dt.canon "bool")
             else Dt.canon "bool"))
    ∧ ∀ (bk : String) (st : DtypeState) (asn : Option Bool),
        default_dtype bk st none (some (.coll [])) asn =
          .ok (defaultDtypeStackRet st (asn.getD false)) := by
  constructor
  · intro bk st it asn h1 h2 h3
    cases hb : asn.getD false <;>
      simp [default_dtype, h1, h2, h3, hb]
  · intro bk st asn
    simp [default_dtype, isEmptyColl]

/-- C10, witness: the theorem evaluated at the scalar item `True` (giving
`bool`) and at the empty list item (giving the `float32` stack
fallback), with empty stacks. -/
theorem claim_c10_witness :
    default_dtype "numpy" emptyState none
        (some (.leaf (.pybool true))) none =
      .ok (Dt.canon "bool")
    ∧ default_dtype "numpy" emptyState none (some (.coll [])) none =
      .ok (Dt.canon "float32") := by
  constructor
  · have h := claim_c10.1 "numpy" emptyState (.leaf (.pybool true)) none
      (by decide) (by decide) (by decide)
    simpa using h
  · have h := claim_c10.2 "numpy" emptyState none
    rw [h]; decide

end IvyDtype

